import Mathlib

/-!
Shallow embedding of `src/meli/meli.functions.ts` (class `MeliFunctions`):
the axios instance with its request/response interceptors (token refresh and
single-retry-on-401), the `getQuestions` URL/query construction, and the
try/catch error recovery of the thin wrapper operations.
-/

namespace MeliFunctions

/-- The per-principal mutable configuration `req.user.config`: the stored
access token (`meliAccess`), refresh token (`meliRefresh`) and seller id
(`meliId`). -/
structure UserConfig where
  meliAccess : String
  meliRefresh : String
  meliId : Nat
deriving Repr, DecidableEq

/-- An outbound axios request config: its url, the `Authorization` header and
the `sent` marker set by the response interceptor before refreshing
(initially absent/false on caller-built requests). -/
structure ReqConfig where
  url : String
  authorization : String
  sent : Bool
deriving Repr, DecidableEq

/-- What the network returns for one dispatched request: a successful
response body, or an error whose optional field is `error?.response?.status`
(`none` models a network-level failure with no HTTP response). -/
inductive NetResult where
  | ok (body : String)
  | err (status : Option Nat)
deriving Repr, DecidableEq

/-- The axios error object seen by the response interceptor: `error.config`
(the originating request) and `error?.response?.status`. -/
structure AxiosErr where
  config : ReqConfig
  status : Option Nat
deriving Repr, DecidableEq

/-- The `ErrorActions` tag attached to the `UnauthorizedException` thrown on
refresh failure (`ErrorActions.LinkMeli` from `src/types/actions.types`). -/
inductive ErrorActions where
  | LinkMeli
deriving Repr, DecidableEq

/-- `refreshResponse.data` of `meliOauth.refreshAccessToken`: either a payload
with an `error` field, or a new `access_token` / `refresh_token` pair. -/
inductive RefreshData where
  | failure
  | success (access_token : String) (refresh_token : String)
deriving Repr, DecidableEq

/-- What one run of a request through `httpInstance` can produce for the
caller: a resolved response, a rejected axios error (`Promise.reject(error)`),
the `UnauthorizedException` thrown on refresh failure, or the rejection of
`emitter.emitAsync` propagating out of the interceptor. -/
inductive Outcome where
  | success (body : String)
  | rejected (e : AxiosErr)
  | unauthorized (message : String) (action : ErrorActions)
  | broadcastFailed
deriving Repr, DecidableEq

/-- The external collaborators of the interceptor: the network transport
behind `httpInstance`, `meliOauth.refreshAccessToken` (applied to the current
stored refresh token), and whether `emitter.emitAsync` resolves for a given
payload (`false` models a subscriber rejecting). -/
structure Env where
  net : ReqConfig → NetResult
  refresh : String → RefreshData
  emitOk : RefreshData → Bool

/-- The observable result of running one caller request to completion: the
settled outcome, the final stored token config, how many refresh exchanges
ran, and the trace of request configs handed to the network, in order. -/
structure RunResult where
  outcome : Outcome
  finalTokens : UserConfig
  refreshes : Nat
  trace : List ReqConfig
deriving Repr, DecidableEq

/-- `const errorCodes = [401]` in the response interceptor. -/
def errorCodes : List Nat := [401]

/-- The request interceptor: `config.headers.Authorization = Bearer ${this.token}`. -/
def requestInterceptor (cfg : UserConfig) (req : ReqConfig) : ReqConfig :=
  { req with authorization := "Bearer " ++ cfg.meliAccess }

/-- One dispatch through `httpInstance` together with the response
interceptor's error handler; `fuel` bounds the re-dispatch
`return this.httpInstance(prevRequest)` (the retried request carries
`sent = true`, so one unit of fuel is never consumed twice for one caller
request). Mirrors `MeliFunctions` constructor lines 55-92. -/
def dispatchFuel : Nat → Env → UserConfig → ReqConfig → RunResult
  | fuel, env, cfg, req =>
    let req1 := requestInterceptor cfg req
    match env.net req1 with
    | .ok b => ⟨.success b, cfg, 0, [req1]⟩
    | .err s =>
      let e : AxiosErr := ⟨req1, s⟩
      if (s.any fun st => errorCodes.contains st) && !req1.sent then
        let prev := { req1 with sent := true }
        match env.refresh cfg.meliRefresh with
        | .failure =>
          ⟨.unauthorized "Please link meli again" .LinkMeli, cfg, 1, [req1]⟩
        | .success a r =>
          let cfg2 : UserConfig := { cfg with meliAccess := a, meliRefresh := r }
          let prev2 := { prev with authorization := "Bearer " ++ a }
          if env.emitOk (.success a r) then
            match fuel with
            | 0 => ⟨.rejected e, cfg2, 1, [req1]⟩
            | f + 1 =>
              let sub := dispatchFuel f env cfg2 prev2
              ⟨sub.outcome, sub.finalTokens, 1 + sub.refreshes, req1 :: sub.trace⟩
          else ⟨.broadcastFailed, cfg2, 1, [req1]⟩
      else ⟨.rejected e, cfg, 0, [req1]⟩

/-- Run one caller-initiated request to completion (the retried dispatch,
when it happens, is the single recursive step). -/
def runRequest (env : Env) (cfg : UserConfig) (req : ReqConfig) : RunResult :=
  dispatchFuel 1 env cfg req

/-- Number of retried dispatches of a run: every network dispatch after the
first one. -/
def retriedDispatches (R : RunResult) : Nat :=
  R.trace.length - 1

/-! ## `getQuestions` URL and query construction (lines 116-149) -/

/-- The `sort` filter object: `{ order, fields }`. -/
structure QuestionsSort where
  order : String
  fields : String
deriving Repr, DecidableEq

/-- `GetQuestionsFilters` (declared in `src/types/meli.types`, not under
`src/`): each field optional, as used by `getQuestions`:
`from` (a numeric user id, `filters.from.toString()` is appended), `item`,
`status`, `sort`, `limit`, `offset`, `questionId`. -/
structure GetQuestionsFilters where
  «from» : Option Nat := none
  item : Option String := none
  status : Option String := none
  sort : Option QuestionsSort := none
  limit : Option Nat := none
  offset : Option Nat := none
  questionId : Option Nat := none
deriving Repr, DecidableEq

/-- JavaScript truthiness of an optional number (`undefined` and `0` are
falsy). -/
def truthyNat : Option Nat → Bool
  | some n => n != 0
  | none => false

/-- JavaScript truthiness of an optional string (`undefined` and `''` are
falsy). -/
def truthyStr : Option String → Bool
  | some s => s != ""
  | none => false

/-- `URLSearchParams`: an ordered multimap of key/value pairs. -/
structure URLSearchParams where
  pairs : List (String × String)
deriving Repr, DecidableEq

/-- `params.append(k, v)`: adds the pair at the end. -/
def URLSearchParams.append (p : URLSearchParams) (k v : String) : URLSearchParams :=
  ⟨p.pairs ++ [(k, v)]⟩

/-- `params.delete(k)`: removes every pair whose key is exactly `k`
(no wildcard semantics: `delete('*')` removes only pairs whose key is the
literal string `*`). -/
def URLSearchParams.delete (p : URLSearchParams) (k : String) : URLSearchParams :=
  ⟨p.pairs.filter fun kv => kv.1 != k⟩

/-- `x?.toString() || d` for an optional number `x`: the string form of `x`
when present and non-empty as a string, otherwise the default `d`. -/
def jsOrDefault (x : Option Nat) (d : String) : String :=
  match x.map toString with
  | some s => if s == "" then d else s
  | none => d

/-- The url and query params that `getQuestions(filters)` hands to
`httpInstance.get(url, { params })`, built exactly as in lines 117-149:
the `from`/`item` vs `seller_id` branch, the `status` default, the optional
`sort` pair, the defaulted `limit`/`offset`, the `questionId` url override
with `params.delete('*')`, and the final `api_version` append. -/
def getQuestionsRequest (sellerId : Nat) (filters : Option GetQuestionsFilters) :
    String × URLSearchParams :=
  let params : URLSearchParams := ⟨[]⟩
  let url : String := "/questions/search"
  let fromV := filters.bind fun f => f.«from»
  let itemV := filters.bind fun f => f.item
  let step1 : String × URLSearchParams :=
    if truthyNat fromV && truthyStr itemV then
      ("/questions/search",
        (params.append "from" (toString (fromV.getD 0))).append "item" (itemV.getD ""))
    else
      (url, params.append "seller_id" (toString sellerId))
  let statusV := filters.bind fun f => f.status
  let step2 : String × URLSearchParams :=
    (step1.1,
      if truthyStr statusV then step1.2.append "status" (statusV.getD "")
      else step1.2.append "status" "UNANSWERED")
  let sortV := filters.bind fun f => f.sort
  let step3 : String × URLSearchParams :=
    (step2.1,
      match sortV with
      | some s => (step2.2.append "sort_types" s.order).append "sort_fields" s.fields
      | none => step2.2)
  let step4 : String × URLSearchParams :=
    (step3.1,
      (step3.2.append "limit" (jsOrDefault (filters.bind fun f => f.limit) "25")).append
        "offset" (jsOrDefault (filters.bind fun f => f.offset) "0"))
  let qV := filters.bind fun f => f.questionId
  let step5 : String × URLSearchParams :=
    if truthyNat qV then
      ("/questions/" ++ toString (qV.getD 0), step4.2.delete "*")
    else step4
  (step5.1, step5.2.append "api_version" "4")

/-! ## The thin wrappers' catch handlers -/

/-- The error object caught by a wrapper's `catch`: whether it is an axios
error (`error.isAxiosError`) and its optional `error.response`
(absent for network-level failures and for non-axios errors). -/
structure CaughtError where
  isAxiosError : Bool
  response : Option String
deriving Repr, DecidableEq

/-- What a wrapper's catch block does with the error: return a value to the
caller (possibly `undefined` when `response` is absent) or re-raise. -/
inductive CatchResult where
  | returned (response : Option String)
  | raised (e : CaughtError)
deriving Repr, DecidableEq

/-- The catch handler shared by the thin wrappers other than `getItem`
(e.g. `getQuestions` lines 156-162, `getItem`-siblings at lines 100-107,
173-180, ...): `if (error.isAxiosError) return error.response; throw error`. -/
def thinWrapperCatch (e : CaughtError) : CatchResult :=
  if e.isAxiosError then .returned e.response else .raised e

/-- `getItem`'s catch handler (lines 315-318): unconditionally
`return (error as AxiosError).response`. -/
def getItemCatch (e : CaughtError) : CatchResult :=
  .returned e.response

end MeliFunctions

open MeliFunctions

/-- A request whose `sent` marker is already true never triggers a refresh:
the interceptor either passes the success through or rejects, leaving the
stored tokens untouched and dispatching exactly once. -/
theorem dispatchFuel_sent (fuel : Nat) (env : Env) (cfg : UserConfig) (req : ReqConfig)
    (h : req.sent = true) :
    (dispatchFuel fuel env cfg req).refreshes = 0 ∧
    (dispatchFuel fuel env cfg req).finalTokens = cfg ∧
    (dispatchFuel fuel env cfg req).trace = [requestInterceptor cfg req] := by
  obtain ⟨u, a0, st⟩ := req
  dsimp only at h
  subst h
  unfold dispatchFuel
  simp only [requestInterceptor]
  cases hnet : env.net ⟨u, "Bearer " ++ cfg.meliAccess, true⟩ with
  | ok b => simp [hnet]
  | err s => simp [hnet]

/-- C2: on an error response whose status is not 401, or whose originating
request is already marked retried (`sent = true`), the interceptor
propagates the error to the caller unchanged: the run rejects with exactly
that error, performs no refresh exchange, dispatches no second request and
leaves the stored tokens untouched. -/
theorem interceptor_passthrough (env : Env) (cfg : UserConfig) (req : ReqConfig)
    (s : Option Nat)
    (hnet : env.net (requestInterceptor cfg req) = .err s)
    (h : s ≠ some 401 ∨ req.sent = true) :
    runRequest env cfg req =
      ⟨.rejected ⟨requestInterceptor cfg req, s⟩, cfg, 0, [requestInterceptor cfg req]⟩ := by
  have hc : ((s.any fun st => errorCodes.contains st) &&
      !(requestInterceptor cfg req).sent) = false := by
    rcases h with h | h
    · have hz : (s.any fun st => errorCodes.contains st) = false := by
        cases s with
        | none => rfl
        | some v =>
          have hv : v ≠ 401 := fun hv => h (by rw [hv])
          simp [Option.any, errorCodes, hv]
      rw [hz, Bool.false_and]
    · simp [requestInterceptor, h]
  unfold runRequest dispatchFuel
  simp only [hnet, hc]
  simp

/-- C2 witness: a 500 error on a fresh request is rejected unchanged with no
refresh and a single dispatch. -/
theorem interceptor_passthrough_witness :
    runRequest ⟨fun _ => .err (some 500), fun _ => .failure, fun _ => true⟩
        ⟨"OLD_A", "OLD_R", 7⟩ ⟨"/u", "", false⟩ =
      ⟨.rejected ⟨⟨"/u", "Bearer OLD_A", false⟩, some 500⟩, ⟨"OLD_A", "OLD_R", 7⟩, 0,
        [⟨"/u", "Bearer OLD_A", false⟩]⟩ :=
  interceptor_passthrough _ _ _ (some 500) rfl (Or.inl (by decide))

/-- C3: if the refresh exchange reports a failure payload, the interceptor
throws the `UnauthorizedException` whose message is the re-link hint
"Please link meli again" with action `LinkMeli`; no retried dispatch occurs
(one network dispatch in total) and the stored token pair is unmodified. -/
theorem refresh_failure_relink (env : Env) (cfg : UserConfig) (req : ReqConfig)
    (hs : req.sent = false)
    (hnet : env.net (requestInterceptor cfg req) = .err (some 401))
    (hr : env.refresh cfg.meliRefresh = .failure) :
    runRequest env cfg req =
      ⟨.unauthorized "Please link meli again" .LinkMeli, cfg, 1,
        [requestInterceptor cfg req]⟩ := by
  have hc : (((some 401).any fun st => errorCodes.contains st) &&
      !(requestInterceptor cfg req).sent) = true := by
    simp [requestInterceptor, hs, errorCodes]
  unfold runRequest dispatchFuel
  simp only [hnet, hc, hr]
  simp

/-- C3 witness: a concrete 401 run whose refresh exchange fails ends in the
re-link error with the tokens unchanged and one dispatch. -/
theorem refresh_failure_relink_witness :
    runRequest ⟨fun _ => .err (some 401), fun _ => .failure, fun _ => true⟩
        ⟨"OLD_A", "OLD_R", 7⟩ ⟨"/v", "", false⟩ =
      ⟨.unauthorized "Please link meli again" .LinkMeli, ⟨"OLD_A", "OLD_R", 7⟩, 1,
        [⟨"/v", "Bearer OLD_A", false⟩]⟩ :=
  refresh_failure_relink _ _ _ rfl rfl rfl

/-- C4: when the refresh exchange on a fresh 401 succeeds with a new pair,
the stored access and refresh tokens both hold the exchanged values at the
end of the run (the seller id is untouched), and every dispatch after the
first — the retried dispatch, when the broadcast lets it happen — carries
the new access token in its Authorization header. -/
theorem refresh_success_updates (env : Env) (cfg : UserConfig) (req : ReqConfig)
    (a r : String)
    (hs : req.sent = false)
    (hnet : env.net (requestInterceptor cfg req) = .err (some 401))
    (hr : env.refresh cfg.meliRefresh = .success a r) :
    (runRequest env cfg req).finalTokens = ⟨a, r, cfg.meliId⟩ ∧
    ∀ q ∈ (runRequest env cfg req).trace.tail, q.authorization = "Bearer " ++ a := by
  have hc : (((some 401).any fun st => errorCodes.contains st) &&
      !(requestInterceptor cfg req).sent) = true := by
    simp [requestInterceptor, hs, errorCodes]
  have hsub := dispatchFuel_sent 0 env ⟨a, r, cfg.meliId⟩
    ⟨(requestInterceptor cfg req).url, "Bearer " ++ a, true⟩ rfl
  unfold runRequest dispatchFuel
  simp only [hnet, hc, hr]
  cases hemit : env.emitOk (.success a r) with
  | false => simp [hemit]
  | true =>
    simp only [hemit, requestInterceptor] at hsub ⊢
    simp [hsub.2.1, hsub.2.2, requestInterceptor]

/-- C4 witness: a concrete successful refresh leaves the new pair stored and
the single retried dispatch authorized with the new token. -/
theorem refresh_success_updates_witness :
    (runRequest ⟨fun q => if q.sent then .ok "OK" else .err (some 401),
        fun _ => .success "NEW_A" "NEW_R", fun _ => true⟩
        ⟨"OLD_A", "OLD_R", 7⟩ ⟨"/w", "", false⟩).finalTokens = ⟨"NEW_A", "NEW_R", 7⟩ ∧
    ∀ q ∈ (runRequest ⟨fun q => if q.sent then .ok "OK" else .err (some 401),
        fun _ => .success "NEW_A" "NEW_R", fun _ => true⟩
        ⟨"OLD_A", "OLD_R", 7⟩ ⟨"/w", "", false⟩).trace.tail,
      q.authorization = "Bearer " ++ "NEW_A" :=
  refresh_success_updates _ _ _ "NEW_A" "NEW_R" rfl rfl rfl

/-- C1 (amended): a fresh request that receives a 401 triggers exactly one
refresh exchange; the retried dispatch happens at most once, and exactly
once when the refresh exchange succeeds and the tokens-updated broadcast
completes; and no run of any request ever performs more than one refresh
exchange. -/
theorem single_refresh_amended (env : Env) (cfg : UserConfig) (req : ReqConfig) :
    (runRequest env cfg req).refreshes ≤ 1 ∧
    (req.sent = false →
      env.net (requestInterceptor cfg req) = .err (some 401) →
      (runRequest env cfg req).refreshes = 1 ∧
      retriedDispatches (runRequest env cfg req) ≤ 1 ∧
      ∀ a r, env.refresh cfg.meliRefresh = .success a r →
        env.emitOk (.success a r) = true →
        retriedDispatches (runRequest env cfg req) = 1) := by
  constructor
  · unfold runRequest dispatchFuel
    cases hnet : env.net (requestInterceptor cfg req) with
    | ok b => simp [hnet]
    | err s =>
      simp only [hnet]
      cases hc : ((s.any fun st => errorCodes.contains st) &&
          !(requestInterceptor cfg req).sent) with
      | false => simp [hc]
      | true =>
        simp only [hc]
        cases hr : env.refresh cfg.meliRefresh with
        | failure => simp
        | success a r =>
          cases hemit : env.emitOk (.success a r) with
          | false => simp [hemit]
          | true =>
            have hsub := dispatchFuel_sent 0 env ⟨a, r, cfg.meliId⟩
              ⟨(requestInterceptor cfg req).url, "Bearer " ++ a, true⟩ rfl
            simp only [hemit, requestInterceptor] at hsub ⊢
            simp [hsub.1]
  · intro hs hnet
    have hc : (((some 401).any fun st => errorCodes.contains st) &&
        !(requestInterceptor cfg req).sent) = true := by
      simp [requestInterceptor, hs, errorCodes]
    unfold runRequest dispatchFuel
    simp only [hnet, hc]
    cases hr : env.refresh cfg.meliRefresh with
    | failure => simp [retriedDispatches]
    | success a r =>
      cases hemit : env.emitOk (.success a r) with
      | false => simp [hemit, retriedDispatches]
      | true =>
        have hsub := dispatchFuel_sent 0 env ⟨a, r, cfg.meliId⟩
          ⟨(requestInterceptor cfg req).url, "Bearer " ++ a, true⟩ rfl
        simp only [requestInterceptor] at hsub
        refine ⟨?_, ?_, ?_⟩
        · simp [hemit, hsub.1, requestInterceptor]
        · simp [hemit, retriedDispatches, hsub.2.2, requestInterceptor]
        · intro a2 r2 hr2 hemit2
          injection hr2 with h1 h2
          subst h1
          subst h2
          simp [hemit, retriedDispatches, hsub.2.2, requestInterceptor]

/-- C1 counterexample: a fresh request receives a 401 but the refresh
exchange fails, so zero retried dispatches occur — refuting that such a
request always gets exactly one retried dispatch. -/
theorem single_refresh_counterexample :
    retriedDispatches (runRequest
      ⟨fun _ => .err (some 401), fun _ => .failure, fun _ => true⟩
      ⟨"OLD_A", "OLD_R", 7⟩ ⟨"/c1", "", false⟩) ≠ 1 := by decide

/-- C1 witness: a concrete fresh 401 run with a succeeding refresh and
broadcast performs one refresh exchange and one retried dispatch. -/
theorem single_refresh_amended_witness :
    (runRequest ⟨fun _ => .err (some 401), fun _ => .success "NEW_A" "NEW_R", fun _ => true⟩
        ⟨"OLD_A", "OLD_R", 7⟩ ⟨"/w1", "", false⟩).refreshes = 1 ∧
    retriedDispatches (runRequest
        ⟨fun _ => .err (some 401), fun _ => .success "NEW_A" "NEW_R", fun _ => true⟩
        ⟨"OLD_A", "OLD_R", 7⟩ ⟨"/w1", "", false⟩) = 1 := by
  have h := (single_refresh_amended
    ⟨fun _ => .err (some 401), fun _ => .success "NEW_A" "NEW_R", fun _ => true⟩
    ⟨"OLD_A", "OLD_R", 7⟩ ⟨"/w1", "", false⟩).2 rfl rfl
  exact ⟨h.1, h.2.2 "NEW_A" "NEW_R" rfl rfl⟩

/-- C9 (amended): the tokens-updated broadcast is awaited between a
successful refresh and the retried dispatch; if the broadcast fails, its
rejection propagates to the caller and no retried dispatch occurs (the
tokens nevertheless remain updated); if the broadcast completes, the single
retried dispatch occurs. -/
theorem broadcast_gating_amended (env : Env) (cfg : UserConfig) (req : ReqConfig)
    (a r : String)
    (hs : req.sent = false)
    (hnet : env.net (requestInterceptor cfg req) = .err (some 401))
    (hr : env.refresh cfg.meliRefresh = .success a r) :
    (env.emitOk (.success a r) = false →
      runRequest env cfg req =
        ⟨.broadcastFailed, ⟨a, r, cfg.meliId⟩, 1, [requestInterceptor cfg req]⟩) ∧
    (env.emitOk (.success a r) = true →
      retriedDispatches (runRequest env cfg req) = 1) := by
  have hc : (((some 401).any fun st => errorCodes.contains st) &&
      !(requestInterceptor cfg req).sent) = true := by
    simp [requestInterceptor, hs, errorCodes]
  constructor
  · intro hemit
    unfold runRequest dispatchFuel
    simp only [hnet, hc, hr, hemit]
    simp
  · intro hemit
    have hsub := dispatchFuel_sent 0 env ⟨a, r, cfg.meliId⟩
      ⟨(requestInterceptor cfg req).url, "Bearer " ++ a, true⟩ rfl
    simp only [requestInterceptor] at hsub
    unfold runRequest dispatchFuel
    simp only [hnet, hc, hr]
    simp [hemit, retriedDispatches, hsub.2.2, requestInterceptor]

/-- C9 counterexample: on a fresh 401 with a successful refresh but a
failing broadcast, the run ends in the broadcast rejection and zero retried
dispatches occur — refuting that a broadcast failure does not affect the
retry. -/
theorem broadcast_gating_counterexample :
    retriedDispatches (runRequest
        ⟨fun _ => .err (some 401), fun _ => .success "N_A" "N_R", fun _ => false⟩
        ⟨"OLD_A", "OLD_R", 7⟩ ⟨"/c9", "", false⟩) = 0 ∧
    (runRequest ⟨fun _ => .err (some 401), fun _ => .success "N_A" "N_R", fun _ => false⟩
        ⟨"OLD_A", "OLD_R", 7⟩ ⟨"/c9", "", false⟩).outcome = .broadcastFailed := by
  decide

/-- C9 witness: at a concrete input, a failing broadcast yields the
broadcast rejection with no retry, while a completing broadcast yields the
single retried dispatch. -/
theorem broadcast_gating_amended_witness :
    runRequest ⟨fun _ => .err (some 401), fun _ => .success "NA" "NR", fun _ => false⟩
        ⟨"OA", "OR", 7⟩ ⟨"/w9", "", false⟩ =
      ⟨.broadcastFailed, ⟨"NA", "NR", 7⟩, 1, [⟨"/w9", "Bearer OA", false⟩]⟩ ∧
    retriedDispatches (runRequest
        ⟨fun _ => .err (some 401), fun _ => .success "NA" "NR", fun _ => true⟩
        ⟨"OA", "OR", 7⟩ ⟨"/w9", "", false⟩) = 1 :=
  ⟨(broadcast_gating_amended ⟨fun _ => .err (some 401), fun _ => .success "NA" "NR",
      fun _ => false⟩ ⟨"OA", "OR", 7⟩ ⟨"/w9", "", false⟩ "NA" "NR" rfl rfl rfl).1 rfl,
   (broadcast_gating_amended ⟨fun _ => .err (some 401), fun _ => .success "NA" "NR",
      fun _ => true⟩ ⟨"OA", "OR", 7⟩ ⟨"/w9", "", false⟩ "NA" "NR" rfl rfl rfl).2 rfl⟩

/-- C7: calling `getQuestions` with no filters targets the search path and
the query is exactly `seller_id`, `status=UNANSWERED`, `limit=25`,
`offset=0`, `api_version=4`, in that order. -/
theorem default_question_search (sellerId : Nat) :
    getQuestionsRequest sellerId none =
      ("/questions/search",
        ⟨[("seller_id", toString sellerId), ("status", "UNANSWERED"), ("limit", "25"),
          ("offset", "0"), ("api_version", "4")]⟩) := rfl

/-- C10: whatever filters are supplied — including the `questionId`
single-question path — the query built by `getQuestions` contains
`api_version=4` (it is appended unconditionally after every branch). -/
theorem api_version_always (sellerId : Nat) (filters : Option GetQuestionsFilters) :
    ("api_version", "4") ∈ (getQuestionsRequest sellerId filters).2.pairs := by
  unfold getQuestionsRequest
  simp [URLSearchParams.append]

/-- C5: evaluating the embedded `getQuestions` at
`{questionId: 123, status: 'ANSWERED'}` shows the request targets the
single-question path `/questions/123`, yet the `status` filter survives in
the query (together with `seller_id`, `limit` and `offset`):
`params.delete('*')` removes only pairs keyed by the literal `*`, so it
clears nothing, contradicting the claim that the other filters are
overridden and `status` is absent. -/
theorem questionId_keeps_status :
    getQuestionsRequest 7 (some { questionId := some 123, status := some "ANSWERED" }) =
      ("/questions/123",
        ⟨[("seller_id", "7"), ("status", "ANSWERED"), ("limit", "25"), ("offset", "0"),
          ("api_version", "4")]⟩) := rfl

/-- C6: when both `from` and `item` carry (truthy) values, both appear in
the query and no `seller_id` parameter is appended; when `from` carries a
value but `item` does not, no `from` or `item` parameter appears, the
`seller_id` parameter is appended, and (absent a `questionId` override) the
request stays on the search path. -/
theorem from_item_filters (sellerId : Nat) (filters : GetQuestionsFilters)
    (hf : truthyNat filters.«from» = true) :
    (truthyStr filters.item = true →
      ("from", toString (filters.«from».getD 0)) ∈
        (getQuestionsRequest sellerId (some filters)).2.pairs ∧
      ("item", filters.item.getD "") ∈
        (getQuestionsRequest sellerId (some filters)).2.pairs ∧
      ∀ v, ("seller_id", v) ∉ (getQuestionsRequest sellerId (some filters)).2.pairs) ∧
    (truthyStr filters.item = false →
      (∀ v, ("from", v) ∉ (getQuestionsRequest sellerId (some filters)).2.pairs) ∧
      (∀ v, ("item", v) ∉ (getQuestionsRequest sellerId (some filters)).2.pairs) ∧
      ("seller_id", toString sellerId) ∈ (getQuestionsRequest sellerId (some filters)).2.pairs ∧
      (truthyNat filters.questionId = false →
        (getQuestionsRequest sellerId (some filters)).1 = "/questions/search")) := by
  obtain ⟨fv, iv, sv, so, li, off, qi⟩ := filters
  dsimp only at hf ⊢
  constructor
  · intro hi
    cases so <;>
      simp [getQuestionsRequest, hf, hi, URLSearchParams.append, URLSearchParams.delete] <;>
      split_ifs <;> simp_all
  · intro hi
    cases so <;>
      simp [getQuestionsRequest, hf, hi, URLSearchParams.append, URLSearchParams.delete] <;>
      split_ifs <;> simp_all

/-- C6 witness: with `{from: 55, item: "MLA1"}` both pairs appear and no
`seller_id` is appended; with `{from: 55}` alone the query falls back to
`seller_id` on the search path with no `from`/`item` pair. -/
theorem from_item_filters_witness :
    (("from", "55") ∈
        (getQuestionsRequest 7 (some { «from» := some 55, item := some "MLA1" })).2.pairs ∧
      ("item", "MLA1") ∈
        (getQuestionsRequest 7 (some { «from» := some 55, item := some "MLA1" })).2.pairs ∧
      ∀ v, ("seller_id", v) ∉
        (getQuestionsRequest 7 (some { «from» := some 55, item := some "MLA1" })).2.pairs) ∧
    ((∀ v, ("from", v) ∉ (getQuestionsRequest 7 (some { «from» := some 55 })).2.pairs) ∧
      (∀ v, ("item", v) ∉ (getQuestionsRequest 7 (some { «from» := some 55 })).2.pairs) ∧
      ("seller_id", "7") ∈ (getQuestionsRequest 7 (some { «from» := some 55 })).2.pairs ∧
      (getQuestionsRequest 7 (some { «from» := some 55 })).1 = "/questions/search") := by
  have h1 := (from_item_filters 7 { «from» := some 55, item := some "MLA1" } rfl).1 rfl
  have h2 := (from_item_filters 7 { «from» := some 55 } rfl).2 rfl
  exact ⟨h1, h2.1, h2.2.1, h2.2.2.1, h2.2.2.2 rfl⟩

/-- C8 counterexample: a network-level axios error (`isAxiosError` set but
no HTTP response) is returned by the shared wrapper catch as an absent
value instead of being raised, and `getItem`'s catch returns the absent
`response` of a non-axios error instead of re-raising it — refuting that
every non-HTTP failure is raised, never swallowed. -/
theorem wrapper_error_counterexample :
    thinWrapperCatch ⟨true, none⟩ = .returned none ∧
    getItemCatch ⟨false, none⟩ = .returned none := by decide

/-- C8 (amended): when the dispatch fails with an axios error carrying an
upstream HTTP response, every wrapper (the shared catch and `getItem`'s)
returns that response as a value; an error not marked as an axios error is
re-raised by the shared catch used by every wrapper except `getItem`, while
`getItem` returns its (possibly absent) `response` field and never raises. -/
theorem wrapper_error_recovery (e : CaughtError) (resp : String) :
    (e.isAxiosError = true → e.response = some resp →
      thinWrapperCatch e = .returned (some resp) ∧
      getItemCatch e = .returned (some resp)) ∧
    (e.isAxiosError = false →
      thinWrapperCatch e = .raised e ∧ getItemCatch e = .returned e.response) := by
  constructor
  · intro ha hr
    simp [thinWrapperCatch, getItemCatch, ha, hr]
  · intro ha
    simp [thinWrapperCatch, getItemCatch, ha]

/-- C8 witness: an axios error with body `"E"` is returned as a value by
both catch shapes, and a non-axios error is re-raised by the shared catch
while `getItem` returns its absent response. -/
theorem wrapper_error_recovery_witness :
    (thinWrapperCatch ⟨true, some "E"⟩ = .returned (some "E") ∧
      getItemCatch ⟨true, some "E"⟩ = .returned (some "E")) ∧
    (thinWrapperCatch ⟨false, none⟩ = .raised ⟨false, none⟩ ∧
      getItemCatch ⟨false, none⟩ = .returned none) :=
  ⟨(wrapper_error_recovery ⟨true, some "E"⟩ "E").1 rfl rfl,
   (wrapper_error_recovery ⟨false, none⟩ "X").2 rfl⟩
